import Mathlib

/-!
Verification development for the genai-file-search repository.

The Python source is shallowly embedded: pure fragments of the code become
Lean functions; external collaborators (langchain splitter, tiktoken, the
embedding service, the chromadb collection, the LLM service) are passed in
as function parameters, exactly at the boundary where the source calls them.
Machine floats are modelled as rationals.
-/

/-- Python whitespace characters, as used by `str.strip()`:
space, tab, newline, carriage return, vertical tab, form feed. -/
def isPySpace (c : Char) : Bool :=
  c == ' ' || c == '\t' || c == '\n' || c == '\r' || c == '\x0b' || c == '\x0c'

/-- `str.strip()` on a list of characters: drop leading and trailing whitespace. -/
def stripChars (l : List Char) : List Char :=
  ((l.dropWhile isPySpace).reverse.dropWhile isPySpace).reverse

/-- Python `s.strip()`. -/
def pyStrip (s : String) : String :=
  String.mk (stripChars s.data)

theorem dropWhile_forall_iff (p : Char → Bool) (l : List Char) :
    (∀ c ∈ l.dropWhile p, p c) ↔ (∀ c ∈ l, p c) := by
  constructor
  · intro h c hc
    rcases (List.mem_append.mp (by rw [List.takeWhile_append_dropWhile] ; exact hc :
        c ∈ l.takeWhile p ++ l.dropWhile p)) with h1 | h2
    · exact List.mem_takeWhile_imp h1
    · exact h c h2
  · intro h c hc
    exact h c ((List.dropWhile_sublist p).subset hc)

theorem stripChars_eq_nil_iff (l : List Char) :
    stripChars l = [] ↔ ∀ c ∈ l, isPySpace c := by
  unfold stripChars
  rw [List.reverse_eq_nil_iff, List.dropWhile_eq_nil_iff]
  constructor
  · intro h
    rw [← dropWhile_forall_iff isPySpace l]
    intro c hc
    exact h c (List.mem_reverse.mpr hc)
  · intro h c hc
    exact (dropWhile_forall_iff isPySpace l).mpr h c (List.mem_reverse.mp hc)

theorem pyStrip_eq_empty_iff (s : String) :
    pyStrip s = "" ↔ ∀ c ∈ s.data, isPySpace c := by
  unfold pyStrip
  rw [show ("" : String) = String.mk [] from rfl]
  constructor
  · intro h
    exact (stripChars_eq_nil_iff s.data).mp (by injection h)
  · intro h
    rw [(stripChars_eq_nil_iff s.data).mpr h]

/-- Positional metadata attached to an extracted fragment (the Python
metadata dict; the keys actually produced by `FileProcessor`). -/
structure Meta where
  page_number : Option Nat := none
  slide_number : Option Nat := none
  sheet_name : Option String := none
  rows : Option Nat := none
  columns : Option Nat := none
deriving Repr, DecidableEq

/-- One chunk dictionary as produced by `ChunkingService.chunk_text`. -/
structure ChunkDict where
  chunk_index : Nat
  text : String
  token_count : Nat
  meta : Meta
deriving Repr, DecidableEq

/-- Embedding of `ChunkingService.chunk_text` (src/app/service/chunking.py,
lines 23-52).  The langchain `RecursiveCharacterTextSplitter.split_text` and
the tiktoken token counter are external collaborators, passed as functions.
Mirrors: `if not text or not text.strip(): return []`, then one dict per
split chunk with the per-fragment `chunk_index` from `enumerate` and the
fragment metadata copied onto every chunk. -/
def chunk_text (splitText : String → List String) (tokenLen : String → Nat)
    (text : String) (metadata : Meta) : List ChunkDict :=
  if text == "" || pyStrip text == "" then []
  else
    (splitText text).enum.map fun ic =>
      { chunk_index := ic.1, text := ic.2, token_count := tokenLen ic.2, meta := metadata }

/-! ## Distance-to-confidence (src/app/api/search.py, lines 18-23) -/

/-- Round a rational to the nearest integer, ties to even — the semantics of
Python `round` on the exact value. -/
def rhe (q : ℚ) : ℤ :=
  if q - ⌊q⌋ < 1/2 then ⌊q⌋
  else if 1/2 < q - ⌊q⌋ then ⌊q⌋ + 1
  else if ⌊q⌋ % 2 = 0 then ⌊q⌋ else ⌊q⌋ + 1

/-- Python `round(q, 2)`. -/
def round2 (q : ℚ) : ℚ := (rhe (100 * q) : ℚ) / 100

/-- Embedding of `distance_to_confidence`:
`confidence = max(0.0, min(1.0, 1.0 - (distance / 2.0)))` then
`round(confidence, 2)`. -/
def distance_to_confidence (distance : ℚ) : ℚ :=
  round2 (max 0 (min 1 (1 - distance / 2)))

theorem rhe_ge_floor (q : ℚ) : ⌊q⌋ ≤ rhe q := by
  unfold rhe
  split_ifs <;> omega

theorem rhe_le_floor_add_one (q : ℚ) : rhe q ≤ ⌊q⌋ + 1 := by
  unfold rhe
  split_ifs <;> omega

theorem rhe_mono {a b : ℚ} (hab : a ≤ b) : rhe a ≤ rhe b := by
  by_cases hf : ⌊a⌋ < ⌊b⌋
  · calc rhe a ≤ ⌊a⌋ + 1 := rhe_le_floor_add_one a
    _ ≤ ⌊b⌋ := by omega
    _ ≤ rhe b := rhe_ge_floor b
  · have heq : ⌊a⌋ = ⌊b⌋ := le_antisymm (Int.floor_le_floor hab) (not_lt.mp hf)
    have hfr : a - (⌊a⌋ : ℚ) ≤ b - (⌊b⌋ : ℚ) := by
      rw [← heq]
      linarith
    unfold rhe
    rw [heq]
    split_ifs <;> first | omega | linarith

theorem round2_mono {a b : ℚ} (hab : a ≤ b) : round2 a ≤ round2 b := by
  unfold round2
  have h : rhe (100 * a) ≤ rhe (100 * b) := rhe_mono (by linarith)
  exact div_le_div_of_nonneg_right (by exact_mod_cast h) (by norm_num)

theorem rhe_hundred : rhe 100 = 100 := by norm_num [rhe]
theorem rhe_zero : rhe 0 = 0 := by norm_num [rhe]

theorem round2_mem_unit {q : ℚ} (h0 : 0 ≤ q) (h1 : q ≤ 1) :
    0 ≤ round2 q ∧ round2 q ≤ 1 := by
  have hlo : rhe 0 ≤ rhe (100 * q) := rhe_mono (by linarith)
  have hhi : rhe (100 * q) ≤ rhe 100 := rhe_mono (by linarith)
  rw [rhe_zero] at hlo
  rw [rhe_hundred] at hhi
  constructor
  · unfold round2
    positivity
  · unfold round2
    rw [div_le_one (by norm_num)]
    exact_mod_cast hhi

/-! ## Request schemas (src/app/schemas.py, lines 52-88) -/

/-- `SearchRequest`: `query: min_length=1`, `top_k: ge=1, le=20, default 5`. -/
structure SearchRequest where
  query : String
  category_id : Int
  top_k : Int := 5
deriving Repr, DecidableEq

/-- `QARequest`: `question: min_length=1`, `top_k: ge=1, le=20, default 5`. -/
structure QARequest where
  question : String
  category_id : Int
  top_k : Int := 5
deriving Repr, DecidableEq

/-- `FindPassagesRequest`: `query: min_length=1`, `top_k: ge=1, le=50, default 10`. -/
structure FindPassagesRequest where
  query : String
  category_id : Int
  top_k : Int := 10
deriving Repr, DecidableEq

/-- `SummarizeRequest`: optional `max_length: ge=100, le=2000, default 500`. -/
structure SummarizeRequest where
  category_id : Int
  max_length : Option Int := some 500
deriving Repr, DecidableEq

/-- Pydantic validation of `SearchRequest` field constraints. -/
def searchRequestValid (r : SearchRequest) : Bool :=
  decide (1 ≤ r.query.length) && decide (1 ≤ r.top_k) && decide (r.top_k ≤ 20)

/-- Pydantic validation of `QARequest` field constraints. -/
def qaRequestValid (r : QARequest) : Bool :=
  decide (1 ≤ r.question.length) && decide (1 ≤ r.top_k) && decide (r.top_k ≤ 20)

/-- Pydantic validation of `FindPassagesRequest` field constraints. -/
def findPassagesRequestValid (r : FindPassagesRequest) : Bool :=
  decide (1 ≤ r.query.length) && decide (1 ≤ r.top_k) && decide (r.top_k ≤ 50)

/-- Pydantic validation of `SummarizeRequest` field constraints (an omitted
optional field passes validation). -/
def summarizeRequestValid (r : SummarizeRequest) : Bool :=
  match r.max_length with
  | none => true
  | some m => decide (100 ≤ m) && decide (m ≤ 2000)

/-! ## File rows and the file-listing endpoint (src/app/api/files.py, lines 127-135) -/

/-- File processing status (src/app/models.py line 29). -/
inductive Status where
  | pending
  | processing
  | completed
  | failed
deriving Repr, DecidableEq

/-- One row of the `files` table (src/app/models.py, the fields the claims
touch). -/
structure FileRec where
  id : Int
  category_id : Int
  status : Status := .pending
  error_message : Option String := none
  total_chunks : Nat := 0
  processed_at : Bool := false
deriving Repr, DecidableEq

/-- Embedding of `list_files`: the optional query parameter `category_id`
defaults to `None`; the filter is applied under Python truthiness
(`if category_id:`), so both `None` and `0` skip the filter. -/
def list_files (category_id : Option Int) (files : List FileRec) : List FileRec :=
  match category_id with
  | none => files
  | some cid => if cid ≠ 0 then files.filter (fun f => f.category_id == cid) else files

/-! ## The extractor (src/app/service/file_processor.py)

Each `_process_*` method is embedded as a function of the content the
external parser (PyPDF2, openpyxl, python-pptx, pytesseract, ...) hands the
method; the method body itself — joining, filtering, metadata tagging — is
translated literally. -/

/-- One extracted fragment: a text plus positional metadata dict. -/
structure Fragment where
  text : String
  metadata : Meta := {}
deriving Repr, DecidableEq

/-- Python `sep.join(parts)`. -/
def joinSep (sep : String) : List String → String
  | [] => ""
  | [x] => x
  | x :: xs => x ++ sep ++ joinSep sep xs

/-- `FileProcessor._process_txt` (lines 109-113): read the whole file and
return a single fragment, unconditionally. -/
def process_txt (content : String) : List Fragment :=
  [{ text := content }]

/-- `FileProcessor._process_sql` (lines 141-145): same shape as txt. -/
def process_sql (content : String) : List Fragment :=
  [{ text := content }]

/-- `FileProcessor._process_image` (lines 121-125): single fragment with the
OCR output, unconditionally. -/
def process_image (ocr_text : String) : List Fragment :=
  [{ text := ocr_text }]

/-- `FileProcessor._process_docx` (lines 69-73): join the non-blank
paragraphs with a blank line; the single fragment is returned even when the
joined text is empty. -/
def process_docx (paragraphs : List String) : List Fragment :=
  [{ text := joinSep "\n\n" (paragraphs.filter fun p => !(pyStrip p == "")) }]

/-- `FileProcessor._process_csv` (lines 115-119): a single fragment holding
`df.to_string(index=False)` (produced by the external pandas parser),
tagged with the row and column counts, unconditionally. -/
def process_csv (to_string : String) (nrows ncols : Nat) : List Fragment :=
  [{ text := to_string, metadata := { rows := some nrows, columns := some ncols } }]

/-- `FileProcessor._process_json` (lines 127-132): a single fragment holding
`json.dumps(data, indent=2)` (produced by the external json module),
unconditionally. -/
def process_json (dumps : String) : List Fragment :=
  [{ text := dumps }]

/-- `FileProcessor._process_xml` (lines 134-139): a single fragment holding
the text serialization of the parsed tree (produced by the external
ElementTree module), unconditionally. -/
def process_xml (tostring : String) : List Fragment :=
  [{ text := tostring }]

/-- `FileProcessor._process_pdf` (lines 55-67): one fragment per page whose
extracted text is not whitespace-only, tagged with its 1-based page number. -/
def process_pdf (pages : List String) : List Fragment :=
  pages.enum.filterMap fun it =>
    if pyStrip it.2 == "" then none
    else some { text := it.2, metadata := { page_number := some (it.1 + 1) } }

/-- The `rows` list built for one sheet in `_process_excel` (lines 81-85):
each row flattened to `" | "`-joined cell strings (`str(cell)` or `""` for
`None`), keeping only the rows whose flattened text is not whitespace-only. -/
def excelRows (sheet : String × List (List (Option String))) : List String :=
  (sheet.2.map fun row =>
    joinSep " | " (row.map fun cell => cell.getD "")).filter fun rt => !(pyStrip rt == "")

/-- `FileProcessor._process_excel` (lines 75-91): emit each sheet as one
fragment only when some row survives the blank-row filter. -/
def process_excel (sheets : List (String × List (List (Option String)))) : List Fragment :=
  sheets.filterMap fun sheet =>
    if (excelRows sheet).isEmpty then none
    else some { text := joinSep "\n" (excelRows sheet), metadata := { sheet_name := some sheet.1 } }

/-- The `text_parts` list built for one slide in `_process_pptx` (lines
98-101): the shape texts that are not whitespace-only. -/
def slideParts (texts : List String) : List String :=
  texts.filter fun t => !(pyStrip t == "")

/-- `FileProcessor._process_pptx` (lines 93-107): a slide is its list of
shape texts; emit the slide as one fragment only when some shape survives,
tagged with its 1-based slide number. -/
def process_pptx (slides : List (List String)) : List Fragment :=
  slides.enum.filterMap fun islide =>
    if (slideParts islide.2).isEmpty then none
    else some { text := joinSep "\n" (slideParts islide.2),
                metadata := { slide_number := some (islide.1 + 1) } }

theorem pyStrip_ne_empty_of_mem_head (sep : String) (r : String) (rs : List String)
    (h : pyStrip r ≠ "") : pyStrip (joinSep sep (r :: rs)) ≠ "" := by
  have hex : ∃ c ∈ r.data, ¬ isPySpace c := by
    by_contra hall
    push_neg at hall
    exact h ((pyStrip_eq_empty_iff r).mpr (by simpa using hall))
  obtain ⟨c, hc, hcs⟩ := hex
  intro hjoin
  have hall := (pyStrip_eq_empty_iff _).mp hjoin
  apply hcs
  apply hall
  cases rs with
  | nil => simpa [joinSep] using hc
  | cons y ys =>
      simp only [joinSep, String.data_append]
      exact List.mem_append.mpr (Or.inl (List.mem_append.mpr (Or.inl hc)))

/-! ## The ingestion pipeline (src/app/tasks/celery_tasks.py, `process_file_task`) -/

/-- One row of the `chunks` table (src/app/models.py lines 41-54,
the fields written by the pipeline). -/
structure ChunkRow where
  file_id : Int
  chunk_id : String
  chunk_text : String
  chunk_index : Nat
  page_number : Option Nat
deriving Repr, DecidableEq

/-- The metadata record built for the vector store (celery_tasks.py
lines 111-116). -/
structure VectorMeta where
  file_id : Int
  category_id : Int
  chunk_index : Nat
  page_number : Nat
deriving Repr, DecidableEq

/-- One entry of the vector store: (id, text, vector, metadata). -/
structure VectorEntry where
  id : String
  text : String
  embedding : List ℚ
  metadata : VectorMeta
deriving Repr, DecidableEq

/-- The persistent state one pipeline run touches: the File row, the Chunk
rows, and the vector-store entries. -/
structure DBState where
  file : FileRec
  chunks : List ChunkRow
  vector : List VectorEntry
deriving Repr, DecidableEq

/-- The pipeline's external collaborators, passed in at the call boundary:
the extractor result for this file (`Except` models a raised exception), the
langchain splitter and tiktoken counter used by `chunking_service`, the
embedding service (may raise), the chromadb collection behind
`VectorStoreService` (`collectionAdd` is the outcome of `collection.add`,
which may raise; `failedAddWrites` is the set of entries a *failed*
`collection.add` call left behind — chromadb gives the caller no guarantee
about partial writes, so it is an unconstrained parameter), and the
per-chunk `uuid4().hex[:8]` suffixes. -/
structure Env where
  extract : Except String (List Fragment)
  splitText : String → List String
  tokenLen : String → Nat
  embedBatch : List String → Except String (List (List ℚ))
  collectionAdd : List String → List String → List (List ℚ) → List VectorMeta →
    Except String Unit
  failedAddWrites : List VectorEntry
  uuidSuffix : Nat → String

/-- The structured outcome `process_file_task` returns:
`{"status": "success", "file_id": ..., "total_chunks": ...}` or
`{"status": "error", "message": ...}`. -/
inductive TaskResult where
  | success (file_id : Int) (total_chunks : Nat)
  | error (message : String)
deriving Repr, DecidableEq

/-- `f"file_{file_id}_chunk_{idx}_{uuid.uuid4().hex[:8]}"` (line 97). -/
def mkChunkId (file_id : Int) (idx : Nat) (sfx : String) : String :=
  "file_" ++ toString file_id ++ "_chunk_" ++ toString idx ++ "_" ++ sfx

/-- Step 2 of the task (lines 69-75): chunk every extracted document and
concatenate (`all_chunks.extend(chunks)`). -/
def allChunksOf (env : Env) (documents : List Fragment) : List ChunkDict :=
  documents.flatMap fun doc => chunk_text env.splitText env.tokenLen doc.text doc.metadata

/-- Mark the file failed with an error message — the body of each failure
branch of the task (e.g. lines 61-63, 131-133, 156-158). -/
def failState (st : DBState) (msg : String) : DBState :=
  { st with file := { st.file with status := .failed, error_message := some msg } }

/-- The Chunk rows created in the loop at lines 95-108: `chunk_index=idx`
with `idx` from `enumerate(all_chunks)` over the concatenated list. -/
def dbChunksOf (env : Env) (fid : Int) (all_chunks : List ChunkDict) : List ChunkRow :=
  all_chunks.enum.map fun ic =>
    { file_id := fid, chunk_id := mkChunkId fid ic.1 (env.uuidSuffix ic.1),
      chunk_text := ic.2.text, chunk_index := ic.1, page_number := ic.2.meta.page_number }

/-- The vector-store metadata records built at lines 110-117. -/
def chunkMetadatasOf (fid cid : Int) (all_chunks : List ChunkDict) : List VectorMeta :=
  all_chunks.enum.map fun ic =>
    { file_id := fid, category_id := cid, chunk_index := ic.1,
      page_number := ic.2.meta.page_number.getD 0 }

/-- The `chunk_ids` list built in the loop at lines 95-98. -/
def chunkIdsOf (env : Env) (fid : Int) (all_chunks : List ChunkDict) : List String :=
  all_chunks.enum.map fun ic => mkChunkId fid ic.1 (env.uuidSuffix ic.1)

/-- Embedding of `VectorStoreService.add_chunks`
(src/app/service/embeddings.py lines 30-60): call `collection.add` with the
ids, documents, embeddings and metadatas; return `True` when it does not
raise and `False` when it does.  The chromadb collection call is the
external collaborator, passed as `collectionAdd`. -/
def add_chunks
    (collectionAdd : List String → List String → List (List ℚ) → List VectorMeta →
      Except String Unit)
    (chunk_ids : List String) (texts : List String)
    (embeddings : List (List ℚ)) (metadatas : List VectorMeta) : Bool :=
  match collectionAdd chunk_ids texts embeddings metadatas with
  | .ok _ => true
  | .error _ => false

/-- The vector-store entries a successful `collection.add` call inserts
(embeddings.py lines 50-55): one (id, text, vector, metadata) entry per
passed id — the add contract of the external chromadb collection (spec
§4.4), with the lists zipped positionally. -/
def entriesOf (env : Env) (fid cid : Int) (all_chunks : List ChunkDict)
    (embeddings : List (List ℚ)) : List VectorEntry :=
  ((chunkIdsOf env fid all_chunks).zip
    ((all_chunks.map (·.text)).zip (embeddings.zip
      (chunkMetadatasOf fid cid all_chunks)))).map
    fun z => { id := z.1, text := z.2.1, embedding := z.2.2.1, metadata := z.2.2.2 }

/-- The state after the batch commit of the Chunk rows (line 120). -/
def committedState (env : Env) (st1 : DBState) (all_chunks : List ChunkDict) : DBState :=
  { st1 with chunks := st1.chunks ++ dbChunksOf env st1.file.id all_chunks }

/-- The state after a successful run: vector entries added, file completed
with `total_chunks` and the processed timestamp set (lines 136-140). -/
def completedState (env : Env) (st1 : DBState) (all_chunks : List ChunkDict)
    (embeddings : List (List ℚ)) : DBState :=
  { file := { st1.file with
      status := .completed, total_chunks := all_chunks.length, processed_at := true },
    chunks := st1.chunks ++ dbChunksOf env st1.file.id all_chunks,
    vector := st1.vector ++
      entriesOf env st1.file.id st1.file.category_id all_chunks embeddings }

/-- The state after a failed `add_chunks` call (celery_tasks.py lines
130-134): file failed with "Failed to add to vector store", the Chunk rows
of the batch commit still present, and the vector store holding whatever
the failed `collection.add` call left behind (`env.failedAddWrites`) — the
pipeline takes no compensating vector-store action. -/
def failedAddState (env : Env) (st1 : DBState) (all_chunks : List ChunkDict) : DBState :=
  { file := { st1.file with
      status := .failed, error_message := some "Failed to add to vector store" },
    chunks := st1.chunks ++ dbChunksOf env st1.file.id all_chunks,
    vector := st1.vector ++ env.failedAddWrites }

/-- Steps 4-6 of the task (celery_tasks.py lines 92-148), reached with a
non-empty `all_chunks` and successfully generated embeddings: persist the
Chunk rows (batch commit at line 120), call
`vector_store_service.add_chunks` (embedded above from embeddings.py), and
either complete the file or fail it with "Failed to add to vector store".
On a successful `collection.add` the external chromadb collection contains
one new entry per passed id (`entriesOf`, its add contract); on a failed
call it holds the unconstrained `env.failedAddWrites`. -/
def runPersist (env : Env) (st1 : DBState) (all_chunks : List ChunkDict)
    (embeddings : List (List ℚ)) : TaskResult × DBState × List DBState :=
  if add_chunks env.collectionAdd (chunkIdsOf env st1.file.id all_chunks)
      (all_chunks.map (·.text)) embeddings
      (chunkMetadatasOf st1.file.id st1.file.category_id all_chunks) then
    (.success st1.file.id all_chunks.length,
     completedState env st1 all_chunks embeddings,
     [st1, committedState env st1 all_chunks, completedState env st1 all_chunks embeddings])
  else
    (.error "Failed to add to vector store",
     failedAddState env st1 all_chunks,
     [st1, committedState env st1 all_chunks, failedAddState env st1 all_chunks])

/-- The state committed at lines 52-53: status set to `processing`. -/
def processingState (st : DBState) : DBState :=
  { st with file := { st.file with status := .processing } }

/-- Steps 2-3 of the task after a successful extraction (lines 60-89). -/
def runWithDocs (env : Env) (st1 : DBState) (documents : List Fragment) :
    TaskResult × DBState × List DBState :=
  if documents.isEmpty then
    (.error "No text extracted", failState st1 "No text extracted from file",
     [st1, failState st1 "No text extracted from file"])
  else if (allChunksOf env documents).isEmpty then
    (.error "No chunks created", failState st1 "No chunks created",
     [st1, failState st1 "No chunks created"])
  else
    match env.embedBatch ((allChunksOf env documents).map (·.text)) with
    | .error e => (.error e, failState st1 e, [st1, failState st1 e])
    | .ok embeddings => runPersist env st1 (allChunksOf env documents) embeddings

/-- Embedding of `process_file_task` (celery_tasks.py lines 43-163) for a
file that exists in the database.  Returns the task's structured outcome,
the final persistent state, and the sequence of committed states (one
snapshot per `db.commit()`).  The `try/except` of lines 45-160 appears as
the `Except` branches: each exception a step can raise is routed to the
failure continuation that the top-level handler (lines 150-160) implements,
and the task always returns a `TaskResult`. -/
def process_file_task (env : Env) (st : DBState) : TaskResult × DBState × List DBState :=
  match env.extract with
  | .error e =>
      (.error e, failState (processingState st) e,
       [processingState st, failState (processingState st) e])
  | .ok documents => runWithDocs env (processingState st) documents

/-! ## The retrieval handlers (src/app/api/search.py) -/

/-- One raw result of `vector_store_service.search`: the fields the handlers
read (`chunk_id`, `text`, and `result.get("distance", 1.0)`). -/
structure SearchRow where
  chunk_id : String
  text : String
  distance : Option ℚ
deriving Repr, DecidableEq

/-- The `SearchResult` response schema (schemas.py lines 57-60). -/
structure SearchResultOut where
  chunk_id : String
  text : String
  confidence_score : ℚ
deriving Repr, DecidableEq

/-- The `SearchResponse` schema (schemas.py lines 62-65). -/
structure SearchResponse where
  answer : String
  confidence_score : ℚ
  results : List SearchResultOut
deriving Repr, DecidableEq

/-- The `QAResponse` schema (schemas.py lines 80-83). -/
structure QAResponse where
  answer : String
  confidence_score : ℚ
  relevant_chunks : List SearchResultOut
deriving Repr, DecidableEq

/-- Formatting of one raw search result (search.py lines 63-67 and 153-157). -/
def formatResult (r : SearchRow) : SearchResultOut :=
  { chunk_id := r.chunk_id, text := r.text,
    confidence_score := distance_to_confidence (r.distance.getD 1) }

/-- Embedding of the `search_query` handler body (search.py lines 36-73),
after the category-exists check: the embedder, the vector-store search and
the Gemini `generate_answer` service are the function parameters. -/
def search_query (embed : String → List ℚ)
    (search : List ℚ → Int → Int → List SearchRow)
    (generate_answer : String → List String → String × ℚ)
    (request : SearchRequest) : SearchResponse :=
  let query_embedding := embed request.query
  let search_results := search query_embedding request.category_id request.top_k
  if search_results.isEmpty then
    { answer := "No relevant documents found for your query.",
      confidence_score := 0, results := [] }
  else
    let context_chunks := search_results.map (·.text)
    let ac := generate_answer request.query context_chunks
    { answer := ac.1, confidence_score := ac.2,
      results := search_results.map formatResult }

/-- Embedding of the `question_answer` handler body (search.py lines
126-163), after the category-exists check. -/
def question_answer (embed : String → List ℚ)
    (search : List ℚ → Int → Int → List SearchRow)
    (answer_question : String → List String → String × ℚ)
    (request : QARequest) : QAResponse :=
  let query_embedding := embed request.question
  let search_results := search query_embedding request.category_id request.top_k
  if search_results.isEmpty then
    { answer := "I couldn\x27t find relevant information to answer your question.",
      confidence_score := 0, relevant_chunks := [] }
  else
    let context_chunks := search_results.map (·.text)
    let ac := answer_question request.question context_chunks
    { answer := ac.1, confidence_score := ac.2,
      relevant_chunks := search_results.map formatResult }

/-! ## Claim theorems -/

/-- Claim C4: the distance-to-confidence function equals
clamp(1 - distance/2, 0, 1) rounded to 2 decimal places; it maps 0 to 1,
1 to 0.5 and 2 to 0; its output lies in [0,1] for every input; and it is
monotonically non-increasing in distance. -/
theorem distance_to_confidence_spec :
    distance_to_confidence 0 = 1 ∧
    distance_to_confidence 1 = 1/2 ∧
    distance_to_confidence 2 = 0 ∧
    (∀ d : ℚ, distance_to_confidence d = round2 (max 0 (min 1 (1 - d / 2)))) ∧
    (∀ d : ℚ, 0 ≤ distance_to_confidence d ∧ distance_to_confidence d ≤ 1) ∧
    (∀ d1 d2 : ℚ, d1 ≤ d2 → distance_to_confidence d2 ≤ distance_to_confidence d1) := by
  refine ⟨?_, ?_, ?_, fun d => rfl, fun d => ?_, fun d1 d2 h => ?_⟩
  · norm_num [distance_to_confidence, round2, rhe]
  · norm_num [distance_to_confidence, round2, rhe]
  · norm_num [distance_to_confidence, round2, rhe]
  · exact round2_mem_unit (le_max_left _ _) (max_le (by norm_num) (min_le_left _ _))
  · apply round2_mono
    have h1 : (1 : ℚ) - d2 / 2 ≤ 1 - d1 / 2 := by linarith
    exact max_le_max le_rfl (min_le_min le_rfl h1)

/-- Witness for C4 at concrete inputs: instantiates the monotonicity part at
distances 1/2 ≤ 2. -/
theorem distance_to_confidence_spec_witness :
    distance_to_confidence 2 ≤ distance_to_confidence (1/2) :=
  distance_to_confidence_spec.2.2.2.2.2 (1/2) 2 (by norm_num)

/-- Claim C8: for every input text that is empty or consists only of
whitespace, `chunk_text` returns the empty list of chunks. -/
theorem chunk_text_whitespace_empty (splitText : String → List String)
    (tokenLen : String → Nat) (metadata : Meta) (text : String)
    (h : ∀ c ∈ text.data, isPySpace c) :
    chunk_text splitText tokenLen text metadata = [] := by
  have h2 : pyStrip text = "" := (pyStrip_eq_empty_iff text).mpr h
  simp [chunk_text, h2]

/-- Witness for C8: the chunker on the whitespace-only text " \t\n". -/
theorem chunk_text_whitespace_empty_witness :
    chunk_text (fun t => [t]) String.length " \t\n" {} = [] :=
  chunk_text_whitespace_empty (fun t => [t]) String.length {} " \t\n" (by decide)

/-- Claim C9: request validation bounds `top_k` to 1-20 for query/answer and
question-answer requests, to 1-50 for find-passages requests, and the
caller-specified `max_length` to 100-2000 for summarize requests; a request
value outside these ranges is rejected. -/
theorem request_bounds_validation :
    (∀ r : SearchRequest, searchRequestValid r = true → 1 ≤ r.top_k ∧ r.top_k ≤ 20) ∧
    (∀ r : SearchRequest, ¬(1 ≤ r.top_k ∧ r.top_k ≤ 20) → searchRequestValid r = false) ∧
    (∀ r : QARequest, qaRequestValid r = true → 1 ≤ r.top_k ∧ r.top_k ≤ 20) ∧
    (∀ r : QARequest, ¬(1 ≤ r.top_k ∧ r.top_k ≤ 20) → qaRequestValid r = false) ∧
    (∀ r : FindPassagesRequest, findPassagesRequestValid r = true → 1 ≤ r.top_k ∧ r.top_k ≤ 50) ∧
    (∀ r : FindPassagesRequest, ¬(1 ≤ r.top_k ∧ r.top_k ≤ 50) → findPassagesRequestValid r = false) ∧
    (∀ r : SummarizeRequest, ∀ m : Int, r.max_length = some m →
      (summarizeRequestValid r = true → 100 ≤ m ∧ m ≤ 2000) ∧
      (¬(100 ≤ m ∧ m ≤ 2000) → summarizeRequestValid r = false)) := by
  refine ⟨fun r h => ?_, fun r h => ?_, fun r h => ?_, fun r h => ?_,
    fun r h => ?_, fun r h => ?_, fun r m hm => ⟨fun h => ?_, fun h => ?_⟩⟩
  · simp only [searchRequestValid, Bool.and_eq_true, decide_eq_true_eq] at h
    exact ⟨h.1.2, h.2⟩
  · simp only [searchRequestValid, Bool.and_eq_false_iff, decide_eq_false_iff_not]
    tauto
  · simp only [qaRequestValid, Bool.and_eq_true, decide_eq_true_eq] at h
    exact ⟨h.1.2, h.2⟩
  · simp only [qaRequestValid, Bool.and_eq_false_iff, decide_eq_false_iff_not]
    tauto
  · simp only [findPassagesRequestValid, Bool.and_eq_true, decide_eq_true_eq] at h
    exact ⟨h.1.2, h.2⟩
  · simp only [findPassagesRequestValid, Bool.and_eq_false_iff, decide_eq_false_iff_not]
    tauto
  · simp only [summarizeRequestValid, hm, Bool.and_eq_true, decide_eq_true_eq] at h
    exact h
  · simp only [summarizeRequestValid, hm, Bool.and_eq_false_iff, decide_eq_false_iff_not]
    tauto

/-- Witness for C9 at concrete requests: an in-range and an out-of-range
value for each schema. -/
theorem request_bounds_validation_witness :
    (1 ≤ (SearchRequest.mk "q" 1 5).top_k ∧ (SearchRequest.mk "q" 1 5).top_k ≤ 20) ∧
    searchRequestValid (SearchRequest.mk "q" 1 21) = false ∧
    (1 ≤ (QARequest.mk "q" 1 20).top_k ∧ (QARequest.mk "q" 1 20).top_k ≤ 20) ∧
    qaRequestValid (QARequest.mk "q" 1 0) = false ∧
    (1 ≤ (FindPassagesRequest.mk "q" 1 50).top_k ∧ (FindPassagesRequest.mk "q" 1 50).top_k ≤ 50) ∧
    findPassagesRequestValid (FindPassagesRequest.mk "q" 1 51) = false ∧
    (100 ≤ (500 : Int) ∧ (500 : Int) ≤ 2000) ∧
    summarizeRequestValid (SummarizeRequest.mk 1 (some 99)) = false :=
  ⟨request_bounds_validation.1 (SearchRequest.mk "q" 1 5) (by decide),
   request_bounds_validation.2.1 (SearchRequest.mk "q" 1 21) (by decide),
   request_bounds_validation.2.2.1 (QARequest.mk "q" 1 20) (by decide),
   request_bounds_validation.2.2.2.1 (QARequest.mk "q" 1 0) (by decide),
   request_bounds_validation.2.2.2.2.1 (FindPassagesRequest.mk "q" 1 50) (by decide),
   request_bounds_validation.2.2.2.2.2.1 (FindPassagesRequest.mk "q" 1 51) (by decide),
   (request_bounds_validation.2.2.2.2.2.2 (SummarizeRequest.mk 1 (some 500)) 500 rfl).1 (by decide),
   (request_bounds_validation.2.2.2.2.2.2 (SummarizeRequest.mk 1 (some 99)) 99 rfl).2 (by decide)⟩

/-- Claim C10: in `list_files`, `category_id = 0` behaves exactly like no
category filter at all (every row is returned), because the filter is
applied only under Python truthiness; a genuinely non-zero id filters. -/
theorem list_files_category_zero :
    (∀ files : List FileRec, list_files (some 0) files = files) ∧
    (∀ files : List FileRec, list_files none files = files) ∧
    (∀ (files : List FileRec) (cid : Int), cid ≠ 0 →
      list_files (some cid) files = files.filter (fun f => f.category_id == cid)) := by
  refine ⟨fun files => by simp [list_files], fun files => rfl,
    fun files cid h => by simp [list_files, h]⟩

/-- Witness for C10: listing with category 0 returns a row of category 2,
while a real filter on category 1 removes it. -/
theorem list_files_category_zero_witness :
    list_files (some 0) [FileRec.mk 1 2 .pending none 0 false] =
      [FileRec.mk 1 2 .pending none 0 false] ∧
    list_files (some 1) [FileRec.mk 1 2 .pending none 0 false] =
      ([FileRec.mk 1 2 .pending none 0 false].filter (fun f => f.category_id == 1)) :=
  ⟨list_files_category_zero.1 [FileRec.mk 1 2 .pending none 0 false],
   list_files_category_zero.2.2 [FileRec.mk 1 2 .pending none 0 false] 1 (by decide)⟩

/-- Claim C7: whenever the vector-store search returns an empty result list,
both the query/answer handler and the question-answer handler return the
fixed fallback answer with confidence 0 and an empty result list — for every
possible answer-synthesis service, so the synthesis call is never made. -/
theorem empty_search_short_circuits :
    (∀ (embed : String → List ℚ) (search : List ℚ → Int → Int → List SearchRow)
        (generate_answer : String → List String → String × ℚ) (request : SearchRequest),
      search (embed request.query) request.category_id request.top_k = [] →
      search_query embed search generate_answer request =
        { answer := "No relevant documents found for your query.",
          confidence_score := 0, results := [] }) ∧
    (∀ (embed : String → List ℚ) (search : List ℚ → Int → Int → List SearchRow)
        (answer_question : String → List String → String × ℚ) (request : QARequest),
      search (embed request.question) request.category_id request.top_k = [] →
      question_answer embed search answer_question request =
        { answer := "I couldn\x27t find relevant information to answer your question.",
          confidence_score := 0, relevant_chunks := [] }) := by
  constructor
  · intro embed search generate_answer request h
    simp [search_query, h]
  · intro embed search answer_question request h
    simp [question_answer, h]

/-- Witness for C7: a concrete empty category — the search function returns
no rows, and two different synthesis services yield the same fallback. -/
theorem empty_search_short_circuits_witness :
    search_query (fun _ => [1]) (fun _ _ _ => []) (fun q _ => (q, 1)) (SearchRequest.mk "hi" 3 5) =
      { answer := "No relevant documents found for your query.",
        confidence_score := 0, results := [] } ∧
    question_answer (fun _ => [1]) (fun _ _ _ => []) (fun _ _ => ("other", 0)) (QARequest.mk "hi" 3 5) =
      { answer := "I couldn\x27t find relevant information to answer your question.",
        confidence_score := 0, relevant_chunks := [] } :=
  ⟨empty_search_short_circuits.1 (fun _ => [1]) (fun _ _ _ => []) (fun q _ => (q, 1))
      (SearchRequest.mk "hi" 3 5) rfl,
   empty_search_short_circuits.2 (fun _ => [1]) (fun _ _ _ => []) (fun _ _ => ("other", 0))
      (QARequest.mk "hi" 3 5) rfl⟩

/-- Counterexample to C2 as stated: the txt extractor, given a file whose
content is the single space " ", returns a fragment whose text is
whitespace-only — it is not dropped by the extractor. -/
theorem extract_empty_fragment_txt_cex :
    process_txt " " = [{ text := " " }] ∧ pyStrip " " = "" :=
  ⟨rfl, by decide⟩

/-- Claim C2 as amended: the pdf, excel and pptx extractors drop every
empty or whitespace-only fragment, while the flat-text and image extractors
(txt, sql, image OCR, docx, csv, json, xml) return their single fragment
unconditionally, whatever its text. -/
theorem extract_empty_fragment_dropped_paginated :
    (∀ pages : List String, ∀ frag ∈ process_pdf pages, pyStrip frag.text ≠ "") ∧
    (∀ sheets : List (String × List (List (Option String))),
      ∀ frag ∈ process_excel sheets, pyStrip frag.text ≠ "") ∧
    (∀ slides : List (List String), ∀ frag ∈ process_pptx slides, pyStrip frag.text ≠ "") ∧
    (∀ content : String, process_txt content = [{ text := content }]) ∧
    (∀ content : String, process_sql content = [{ text := content }]) ∧
    (∀ content : String, process_image content = [{ text := content }]) ∧
    (∀ paragraphs : List String, process_docx paragraphs =
      [{ text := joinSep "\n\n" (paragraphs.filter fun p => !(pyStrip p == "")) }]) ∧
    (∀ (to_string : String) (nrows ncols : Nat), process_csv to_string nrows ncols =
      [{ text := to_string, metadata := { rows := some nrows, columns := some ncols } }]) ∧
    (∀ dumps : String, process_json dumps = [{ text := dumps }]) ∧
    (∀ tostring : String, process_xml tostring = [{ text := tostring }]) := by
  refine ⟨?_, ?_, ?_, fun c => rfl, fun c => rfl, fun c => rfl,
    fun p => rfl, fun a b c => rfl, fun c => rfl, fun c => rfl⟩
  · intro pages frag hmem
    simp only [process_pdf] at hmem
    obtain ⟨it, _, hit⟩ := List.mem_filterMap.mp hmem
    by_cases hws : (pyStrip it.2 == "") = true
    · rw [if_pos hws] at hit
      cases hit
    · rw [if_neg hws] at hit
      cases hit
      simpa using hws
  · intro sheets frag hmem
    simp only [process_excel] at hmem
    obtain ⟨sheet, _, hit⟩ := List.mem_filterMap.mp hmem
    by_cases hemp : (excelRows sheet).isEmpty = true
    · rw [if_pos hemp] at hit
      cases hit
    · rw [if_neg hemp] at hit
      cases hit
      cases hrl : excelRows sheet with
      | nil => rw [hrl] at hemp ; simp at hemp
      | cons r rs =>
          have hr : pyStrip r ≠ "" := by
            have hrm : r ∈ excelRows sheet := by
              rw [hrl]
              exact List.mem_cons_self r rs
            simpa using (List.mem_filter.mp hrm).2
          exact pyStrip_ne_empty_of_mem_head "\n" r rs hr
  · intro slides frag hmem
    simp only [process_pptx] at hmem
    obtain ⟨islide, _, hit⟩ := List.mem_filterMap.mp hmem
    by_cases hemp : (slideParts islide.2).isEmpty = true
    · rw [if_pos hemp] at hit
      cases hit
    · rw [if_neg hemp] at hit
      cases hit
      cases hpl : slideParts islide.2 with
      | nil => rw [hpl] at hemp ; simp at hemp
      | cons r rs =>
          have hr : pyStrip r ≠ "" := by
            have hrm : r ∈ slideParts islide.2 := by
              rw [hpl]
              exact List.mem_cons_self r rs
            simpa [slideParts] using (List.mem_filter.mp hrm).2
          exact pyStrip_ne_empty_of_mem_head "\n" r rs hr

/-- Witness for C2 (amended) at concrete inputs: a two-page pdf with one
blank page yields only the non-blank page; the txt extractor passes an
empty content through. -/
theorem extract_empty_fragment_dropped_paginated_witness :
    pyStrip ({ text := "hello", metadata := { page_number := some 1 } : Fragment}).text ≠ "" ∧
    process_pdf ["hello", "  "] =
      [{ text := "hello", metadata := { page_number := some 1 } }] ∧
    process_txt "" = [{ text := "" }] :=
  ⟨extract_empty_fragment_dropped_paginated.1 ["hello", "  "]
      { text := "hello", metadata := { page_number := some 1 } } (by decide),
   by decide,
   extract_empty_fragment_dropped_paginated.2.2.2.1 ""⟩

/-! ## Pipeline support lemmas -/

theorem dbChunksOf_map_index (env : Env) (fid : Int) (cs : List ChunkDict) :
    (dbChunksOf env fid cs).map ChunkRow.chunk_index = List.range cs.length := by
  unfold dbChunksOf
  rw [List.map_map]
  exact List.enum_map_fst cs

theorem chunkMetadatasOf_map_index (fid cid : Int) (cs : List ChunkDict) :
    (chunkMetadatasOf fid cid cs).map VectorMeta.chunk_index = List.range cs.length := by
  unfold chunkMetadatasOf
  rw [List.map_map]
  exact List.enum_map_fst cs

theorem dbChunksOf_length (env : Env) (fid : Int) (cs : List ChunkDict) :
    (dbChunksOf env fid cs).length = cs.length := by
  simp [dbChunksOf]

theorem chunkMetadatasOf_length (fid cid : Int) (cs : List ChunkDict) :
    (chunkMetadatasOf fid cid cs).length = cs.length := by
  simp [chunkMetadatasOf]

theorem dbChunksOf_file_id (env : Env) (fid : Int) (cs : List ChunkDict) :
    ∀ c ∈ dbChunksOf env fid cs, c.file_id = fid := by
  intro c hc
  simp only [dbChunksOf, List.mem_map] at hc
  obtain ⟨ic, _, rfl⟩ := hc
  rfl

theorem chunkMetadatasOf_file_id (fid cid : Int) (cs : List ChunkDict) :
    ∀ m ∈ chunkMetadatasOf fid cid cs, m.file_id = fid := by
  intro m hm
  simp only [chunkMetadatasOf, List.mem_map] at hm
  obtain ⟨ic, _, rfl⟩ := hm
  rfl

theorem entriesOf_map_metadata (env : Env) (fid cid : Int) (cs : List ChunkDict)
    (embs : List (List ℚ)) (hl : embs.length = cs.length) :
    (entriesOf env fid cid cs embs).map VectorEntry.metadata =
      chunkMetadatasOf fid cid cs := by
  unfold entriesOf
  have lids : (chunkIdsOf env fid cs).length = cs.length := by
    simp [chunkIdsOf]
  have ltexts : (cs.map (·.text)).length = cs.length := by simp
  have lmetas : (chunkMetadatasOf fid cid cs).length = cs.length :=
    chunkMetadatasOf_length fid cid cs
  have h1 : (chunkMetadatasOf fid cid cs).length ≤ embs.length := by omega
  have h2 : (embs.zip (chunkMetadatasOf fid cid cs)).length ≤ (cs.map (·.text)).length := by
    rw [List.length_zip]
    omega
  have h3 : ((cs.map (·.text)).zip (embs.zip (chunkMetadatasOf fid cid cs))).length ≤
      (chunkIdsOf env fid cs).length := by
    rw [List.length_zip, List.length_zip]
    omega
  rw [List.map_map]
  rw [show (VectorEntry.metadata ∘ fun z : String × String × List ℚ × VectorMeta =>
      ({ id := z.1, text := z.2.1, embedding := z.2.2.1, metadata := z.2.2.2 } : VectorEntry)) =
      (fun y : String × List ℚ × VectorMeta => y.2.2) ∘ Prod.snd from rfl]
  rw [← List.map_map, List.map_snd_zip _ _ h3]
  rw [show (fun y : String × List ℚ × VectorMeta => y.2.2) =
      (fun w : List ℚ × VectorMeta => w.2) ∘ Prod.snd from rfl]
  rw [← List.map_map, List.map_snd_zip _ _ h2]
  rw [show (fun w : List ℚ × VectorMeta => w.2) = Prod.snd from rfl]
  rw [List.map_snd_zip _ _ h1]

theorem entriesOf_length (env : Env) (fid cid : Int) (cs : List ChunkDict)
    (embs : List (List ℚ)) (hl : embs.length = cs.length) :
    (entriesOf env fid cid cs embs).length = cs.length := by
  have := entriesOf_map_metadata env fid cid cs embs hl
  have hlen : ((entriesOf env fid cid cs embs).map VectorEntry.metadata).length =
      (chunkMetadatasOf fid cid cs).length := by rw [this]
  rw [List.length_map] at hlen
  rw [hlen, chunkMetadatasOf_length]

theorem process_file_task_extract_error (env : Env) (st : DBState) (e : String)
    (hx : env.extract = .error e) :
    process_file_task env st =
      (.error e, failState (processingState st) e,
       [processingState st, failState (processingState st) e]) := by
  unfold process_file_task
  rw [hx]

theorem process_file_task_extract_ok (env : Env) (st : DBState) (docs : List Fragment)
    (hx : env.extract = .ok docs) :
    process_file_task env st = runWithDocs env (processingState st) docs := by
  unfold process_file_task
  rw [hx]

theorem runWithDocs_embed_error (env : Env) (st1 : DBState) (docs : List Fragment)
    (e : String) (hd : docs.isEmpty = false)
    (hc : (allChunksOf env docs).isEmpty = false)
    (he : env.embedBatch ((allChunksOf env docs).map (·.text)) = .error e) :
    runWithDocs env st1 docs = (.error e, failState st1 e, [st1, failState st1 e]) := by
  unfold runWithDocs
  rw [hd, hc, he]
  simp

theorem runWithDocs_embed_ok (env : Env) (st1 : DBState) (docs : List Fragment)
    (embs : List (List ℚ)) (hd : docs.isEmpty = false)
    (hc : (allChunksOf env docs).isEmpty = false)
    (he : env.embedBatch ((allChunksOf env docs).map (·.text)) = .ok embs) :
    runWithDocs env st1 docs = runPersist env st1 (allChunksOf env docs) embs := by
  unfold runWithDocs
  rw [hd, hc, he]
  simp

theorem runPersist_pos (env : Env) (st1 : DBState) (cs : List ChunkDict)
    (embs : List (List ℚ))
    (ha : add_chunks env.collectionAdd (chunkIdsOf env st1.file.id cs)
      (cs.map (·.text)) embs
      (chunkMetadatasOf st1.file.id st1.file.category_id cs) = true) :
    runPersist env st1 cs embs =
      (.success st1.file.id cs.length, completedState env st1 cs embs,
       [st1, committedState env st1 cs, completedState env st1 cs embs]) := by
  unfold runPersist
  rw [if_pos ha]

theorem runPersist_neg (env : Env) (st1 : DBState) (cs : List ChunkDict)
    (embs : List (List ℚ))
    (ha : add_chunks env.collectionAdd (chunkIdsOf env st1.file.id cs)
      (cs.map (·.text)) embs
      (chunkMetadatasOf st1.file.id st1.file.category_id cs) = false) :
    runPersist env st1 cs embs =
      (.error "Failed to add to vector store", failedAddState env st1 cs,
       [st1, committedState env st1 cs, failedAddState env st1 cs]) := by
  unfold runPersist
  rw [if_neg (by simp [ha])]

theorem entriesOf_map_meta_index (env : Env) (fid cid : Int) (cs : List ChunkDict)
    (embs : List (List ℚ)) (hl : embs.length = cs.length) :
    (entriesOf env fid cid cs embs).map (fun v => v.metadata.chunk_index) =
      List.range cs.length := by
  have h1 := entriesOf_map_metadata env fid cid cs embs hl
  have h2 : (entriesOf env fid cid cs embs).map (fun v => v.metadata.chunk_index) =
      ((entriesOf env fid cid cs embs).map VectorEntry.metadata).map VectorMeta.chunk_index := by
    rw [List.map_map]
    rfl
  rw [h2, h1, chunkMetadatasOf_map_index]

theorem entriesOf_meta_file_id (env : Env) (fid cid : Int) (cs : List ChunkDict)
    (embs : List (List ℚ)) (hl : embs.length = cs.length) :
    ∀ v ∈ entriesOf env fid cid cs embs, v.metadata.file_id = fid := by
  intro v hv
  have h1 := entriesOf_map_metadata env fid cid cs embs hl
  have h2 : v.metadata ∈ (entriesOf env fid cid cs embs).map VectorEntry.metadata :=
    List.mem_map_of_mem _ hv
  rw [h1] at h2
  exact chunkMetadatasOf_file_id fid cid cs _ h2

/-- Claim C5: every exception a pipeline step raises (extraction or
embedding) is caught at the top level: the File is marked failed with the
exception message as `error_message`, and the task returns a structured
error outcome instead of propagating — `process_file_task` is a total
function into `TaskResult`. -/
theorem pipeline_catches_exceptions :
    (∀ (env : Env) (st : DBState) (e : String), env.extract = .error e →
      (process_file_task env st).1 = .error e ∧
      (process_file_task env st).2.1.file.status = .failed ∧
      (process_file_task env st).2.1.file.error_message = some e) ∧
    (∀ (env : Env) (st : DBState) (docs : List Fragment) (e : String),
      env.extract = .ok docs → docs.isEmpty = false →
      (allChunksOf env docs).isEmpty = false →
      env.embedBatch ((allChunksOf env docs).map (·.text)) = .error e →
      (process_file_task env st).1 = .error e ∧
      (process_file_task env st).2.1.file.status = .failed ∧
      (process_file_task env st).2.1.file.error_message = some e) := by
  constructor
  · intro env st e hx
    rw [process_file_task_extract_error env st e hx]
    exact ⟨rfl, rfl, rfl⟩
  · intro env st docs e hx hd hc he
    rw [process_file_task_extract_ok env st docs hx,
        runWithDocs_embed_error env (processingState st) docs e hd hc he]
    exact ⟨rfl, rfl, rfl⟩

/-- The concrete pipeline environment used by the witnesses: a file whose
extraction yields two fragments "alpha" and "beta", a splitter that keeps
each fragment whole, and an embedder returning one vector per text. -/
def envC1 : Env :=
  { extract := .ok [{ text := "alpha" }, { text := "beta" }],
    splitText := fun t => [t],
    tokenLen := String.length,
    embedBatch := fun ts => .ok (ts.map fun t => [(t.length : ℚ)]),
    collectionAdd := fun _ _ _ _ => .ok (),
    failedAddWrites := [],
    uuidSuffix := fun _ => "aaaabbbb" }

/-- A fresh `pending` file row with no chunks and no vector entries. -/
def stFresh : DBState :=
  { file := { id := 1, category_id := 7 }, chunks := [], vector := [] }

/-- Witness for C5: the same pipeline input with a raising extractor, and
with a raising embedder. -/
theorem pipeline_catches_exceptions_witness :
    (process_file_task { envC1 with extract := .error "boom" } stFresh).1 = .error "boom" ∧
    (process_file_task { envC1 with extract := .error "boom" } stFresh).2.1.file.status = .failed ∧
    (process_file_task { envC1 with
        embedBatch := fun _ => .error "embed down" } stFresh).1 = .error "embed down" ∧
    (process_file_task { envC1 with
        embedBatch := fun _ => .error "embed down" } stFresh).2.1.file.error_message =
      some "embed down" := by
  have h1 := pipeline_catches_exceptions.1 { envC1 with extract := .error "boom" } stFresh
    "boom" rfl
  have h2 := pipeline_catches_exceptions.2 { envC1 with
      embedBatch := fun _ => .error "embed down" } stFresh
    [{ text := "alpha" }, { text := "beta" }] "embed down" rfl rfl rfl rfl
  exact ⟨h1.1, h1.2.1, h2.1, h2.2.2⟩

/-- Claim C6 as amended: when the single vector-store write reports
failure, the pipeline marks the file failed with error message "Failed to
add to vector store" (capital F in the code) and stops; the Chunk rows
committed in the preceding step remain persisted (not rolled back), and the
pipeline takes no compensating vector-store action — the vector store keeps
exactly whatever the failed `collection.add` call left behind — so whenever
that failed call wrote fewer entries than there are chunks, the relational
store and the vector index diverge. -/
theorem vector_store_failure_divergence (env : Env) (st : DBState)
    (docs : List Fragment) (embs : List (List ℚ))
    (hch : st.chunks = []) (hv : st.vector = [])
    (hx : env.extract = .ok docs) (hd : docs.isEmpty = false)
    (hc : (allChunksOf env docs).isEmpty = false)
    (he : env.embedBatch ((allChunksOf env docs).map (·.text)) = .ok embs)
    (ha : add_chunks env.collectionAdd (chunkIdsOf env st.file.id (allChunksOf env docs))
      ((allChunksOf env docs).map (·.text)) embs
      (chunkMetadatasOf st.file.id st.file.category_id (allChunksOf env docs)) = false) :
    (process_file_task env st).1 = .error "Failed to add to vector store" ∧
    (process_file_task env st).2.1.file.status = .failed ∧
    (process_file_task env st).2.1.file.error_message = some "Failed to add to vector store" ∧
    (process_file_task env st).2.1.chunks.length = (allChunksOf env docs).length ∧
    0 < (allChunksOf env docs).length ∧
    (process_file_task env st).2.1.vector = env.failedAddWrites ∧
    (env.failedAddWrites.length < (allChunksOf env docs).length →
      (process_file_task env st).2.1.vector.length ≠
        (process_file_task env st).2.1.chunks.length) := by
  rw [process_file_task_extract_ok env st docs hx,
      runWithDocs_embed_ok env (processingState st) docs embs hd hc he,
      runPersist_neg env (processingState st) (allChunksOf env docs) embs ha]
  refine ⟨rfl, rfl, rfl, ?_, ?_, ?_, ?_⟩
  · simp [failedAddState, processingState, hch, dbChunksOf_length]
  · cases hcs : allChunksOf env docs with
    | nil => rw [hcs] at hc ; simp at hc
    | cons a as => simp [hcs]
  · simp [failedAddState, processingState, hv]
  · intro hlt
    simp only [failedAddState, processingState]
    rw [hch, hv]
    simp [dbChunksOf_length]
    omega

/-- The witness environment for C6: same file, but the chromadb
`collection.add` call raises (and leaves nothing behind). -/
def envC6 : Env := { envC1 with collectionAdd := fun _ _ _ _ => .error "chroma down" }

/-- Counterexample to C6 as stated: the persisted error message is
"Failed to add to vector store", not the lowercase
"failed to add to vector store" the claim quotes. -/
theorem vector_store_failure_message_cex :
    (process_file_task envC6 stFresh).2.1.file.error_message =
      some "Failed to add to vector store" ∧
    (process_file_task envC6 stFresh).2.1.file.error_message ≠
      some "failed to add to vector store" := by
  have h1 : (process_file_task envC6 stFresh).2.1.file.error_message =
      some "Failed to add to vector store" := by
    rw [process_file_task_extract_ok envC6 stFresh
          [{ text := "alpha" }, { text := "beta" }] rfl,
        runWithDocs_embed_ok envC6 (processingState stFresh)
          [{ text := "alpha" }, { text := "beta" }]
          [[(5 : ℚ)], [(4 : ℚ)]] rfl rfl rfl]
    rfl
  refine ⟨h1, ?_⟩
  rw [h1]
  decide

/-- Witness for C6 (amended) at the concrete environment: the failed write
leaves 2 committed Chunk rows, the vector store holds only what the failed
call left (here: nothing), and the two counts diverge. -/
theorem vector_store_failure_divergence_witness :
    (process_file_task envC6 stFresh).1 = .error "Failed to add to vector store" ∧
    (process_file_task envC6 stFresh).2.1.file.status = .failed ∧
    (process_file_task envC6 stFresh).2.1.chunks.length =
      (allChunksOf envC6 [{ text := "alpha" }, { text := "beta" }]).length ∧
    (process_file_task envC6 stFresh).2.1.vector = envC6.failedAddWrites ∧
    (process_file_task envC6 stFresh).2.1.vector.length ≠
      (process_file_task envC6 stFresh).2.1.chunks.length := by
  have h := vector_store_failure_divergence envC6 stFresh
    [{ text := "alpha" }, { text := "beta" }] [[(5 : ℚ)], [(4 : ℚ)]]
    rfl rfl rfl rfl rfl rfl rfl
  exact ⟨h.1, h.2.1, h.2.2.2.1, h.2.2.2.2.2.1, h.2.2.2.2.2.2 (by decide)⟩

/-- Claim C1 as amended: the ordinal persisted on each Chunk row, and in
each vector-store metadata record, is the globally renumbered index over
the concatenated chunk sequence (`enumerate(all_chunks)`, i.e. 0..N-1 in
concatenation order) — the per-fragment `chunk_index` the chunker assigned
is discarded at persistence time. -/
theorem chunk_index_globally_renumbered (env : Env) (st : DBState)
    (docs : List Fragment) (embs : List (List ℚ))
    (hx : env.extract = .ok docs) (hd : docs.isEmpty = false)
    (hc : (allChunksOf env docs).isEmpty = false)
    (he : env.embedBatch ((allChunksOf env docs).map (·.text)) = .ok embs)
    (hch : st.chunks = []) (hv : st.vector = [])
    (hl : embs.length = (allChunksOf env docs).length) :
    (process_file_task env st).2.1.chunks.map ChunkRow.chunk_index =
      List.range (allChunksOf env docs).length ∧
    (add_chunks env.collectionAdd (chunkIdsOf env st.file.id (allChunksOf env docs))
        ((allChunksOf env docs).map (·.text)) embs
        (chunkMetadatasOf st.file.id st.file.category_id (allChunksOf env docs)) = true →
      (process_file_task env st).2.1.vector.map (fun v => v.metadata.chunk_index) =
        List.range (allChunksOf env docs).length) := by
  rw [process_file_task_extract_ok env st docs hx,
      runWithDocs_embed_ok env (processingState st) docs embs hd hc he]
  cases hadd : add_chunks env.collectionAdd
      (chunkIdsOf env st.file.id (allChunksOf env docs))
      ((allChunksOf env docs).map (·.text)) embs
      (chunkMetadatasOf st.file.id st.file.category_id (allChunksOf env docs)) with
  | true =>
      rw [runPersist_pos env (processingState st) (allChunksOf env docs) embs hadd]
      constructor
      · simp only [completedState, processingState]
        rw [hch]
        simp only [List.nil_append]
        exact dbChunksOf_map_index env st.file.id (allChunksOf env docs)
      · intro _
        simp only [completedState, processingState]
        rw [hv]
        simp only [List.nil_append]
        exact entriesOf_map_meta_index env st.file.id st.file.category_id
          (allChunksOf env docs) embs hl
  | false =>
      rw [runPersist_neg env (processingState st) (allChunksOf env docs) embs hadd]
      constructor
      · simp only [failedAddState, processingState]
        rw [hch]
        simp only [List.nil_append]
        exact dbChunksOf_map_index env st.file.id (allChunksOf env docs)
      · intro h
        exact absurd h (by decide)

/-- Counterexample to C1 as stated: a file of two fragments, each yielding
one chunk.  The chunker assigns per-fragment ordinals [0, 0], but the
persisted Chunk rows and vector metadata carry [0, 1] — the globally
renumbered indices, not the per-fragment ones. -/
theorem chunk_index_not_per_fragment_cex :
    (allChunksOf envC1 [{ text := "alpha" }, { text := "beta" }]).map
        ChunkDict.chunk_index = [0, 0] ∧
    (process_file_task envC1 stFresh).2.1.chunks.map ChunkRow.chunk_index = [0, 1] ∧
    (process_file_task envC1 stFresh).2.1.vector.map
        (fun v => v.metadata.chunk_index) = [0, 1] ∧
    (process_file_task envC1 stFresh).2.1.chunks.map ChunkRow.chunk_index ≠
      (allChunksOf envC1 [{ text := "alpha" }, { text := "beta" }]).map
        ChunkDict.chunk_index := by
  have hred : process_file_task envC1 stFresh =
      runPersist envC1 (processingState stFresh)
        (allChunksOf envC1 [{ text := "alpha" }, { text := "beta" }])
        [[(5 : ℚ)], [(4 : ℚ)]] := by
    rw [process_file_task_extract_ok envC1 stFresh
          [{ text := "alpha" }, { text := "beta" }] rfl,
        runWithDocs_embed_ok envC1 (processingState stFresh)
          [{ text := "alpha" }, { text := "beta" }] [[(5 : ℚ)], [(4 : ℚ)]] rfl rfl rfl]
  have hchunks : (process_file_task envC1 stFresh).2.1.chunks.map ChunkRow.chunk_index
      = [0, 1] := by
    rw [hred, runPersist_pos envC1 (processingState stFresh)
          (allChunksOf envC1 [{ text := "alpha" }, { text := "beta" }])
          [[(5 : ℚ)], [(4 : ℚ)]] rfl]
    simp only [completedState, processingState]
    rw [show stFresh.chunks = [] from rfl]
    simp only [List.nil_append]
    rw [dbChunksOf_map_index]
    decide
  have hvec : (process_file_task envC1 stFresh).2.1.vector.map
      (fun v => v.metadata.chunk_index) = [0, 1] := by
    rw [hred, runPersist_pos envC1 (processingState stFresh)
          (allChunksOf envC1 [{ text := "alpha" }, { text := "beta" }])
          [[(5 : ℚ)], [(4 : ℚ)]] rfl]
    simp only [completedState, processingState]
    rw [show stFresh.vector = [] from rfl]
    simp only [List.nil_append]
    rw [entriesOf_map_meta_index envC1 stFresh.file.id stFresh.file.category_id
          (allChunksOf envC1 [{ text := "alpha" }, { text := "beta" }])
          [[(5 : ℚ)], [(4 : ℚ)]] (by decide)]
    decide
  refine ⟨by decide, hchunks, hvec, ?_⟩
  rw [hchunks]
  decide

/-- Witness for C1 (amended) at the concrete two-fragment environment. -/
theorem chunk_index_globally_renumbered_witness :
    (process_file_task envC1 stFresh).2.1.chunks.map ChunkRow.chunk_index =
      List.range (allChunksOf envC1 [{ text := "alpha" }, { text := "beta" }]).length ∧
    (process_file_task envC1 stFresh).2.1.vector.map (fun v => v.metadata.chunk_index) =
      List.range (allChunksOf envC1 [{ text := "alpha" }, { text := "beta" }]).length := by
  have h := chunk_index_globally_renumbered envC1 stFresh
    [{ text := "alpha" }, { text := "beta" }] [[(5 : ℚ)], [(4 : ℚ)]]
    rfl rfl rfl rfl rfl rfl (by decide)
  exact ⟨h.1, h.2 rfl⟩

/-- Claim C3: on a successful run yielding N chunks the task returns
success, the file is `completed` with `total_chunks = N`, and N equals both
the number of persisted Chunk rows and the number of vector-store entries
for that file; and in every committed state whose status is not
`completed` (pending, processing or failed), `total_chunks` is 0. -/
theorem total_chunks_matches_counts :
    (∀ (env : Env) (st : DBState) (docs : List Fragment) (embs : List (List ℚ)),
      st.chunks = [] → st.vector = [] →
      env.extract = .ok docs → docs.isEmpty = false →
      (allChunksOf env docs).isEmpty = false →
      env.embedBatch ((allChunksOf env docs).map (·.text)) = .ok embs →
      embs.length = (allChunksOf env docs).length →
      add_chunks env.collectionAdd (chunkIdsOf env st.file.id (allChunksOf env docs))
        ((allChunksOf env docs).map (·.text)) embs
        (chunkMetadatasOf st.file.id st.file.category_id (allChunksOf env docs)) = true →
      (process_file_task env st).1 = .success st.file.id (allChunksOf env docs).length ∧
      (process_file_task env st).2.1.file.status = .completed ∧
      (process_file_task env st).2.1.file.total_chunks = (allChunksOf env docs).length ∧
      (process_file_task env st).2.1.chunks.length = (allChunksOf env docs).length ∧
      (∀ c ∈ (process_file_task env st).2.1.chunks, c.file_id = st.file.id) ∧
      (process_file_task env st).2.1.vector.length = (allChunksOf env docs).length ∧
      (∀ v ∈ (process_file_task env st).2.1.vector, v.metadata.file_id = st.file.id)) ∧
    (∀ (env : Env) (st : DBState), st.file.total_chunks = 0 →
      ∀ s ∈ (process_file_task env st).2.2,
        s.file.status ≠ Status.completed → s.file.total_chunks = 0) := by
  constructor
  · intro env st docs embs hch hv hx hd hc he hl ha
    rw [process_file_task_extract_ok env st docs hx,
        runWithDocs_embed_ok env (processingState st) docs embs hd hc he,
        runPersist_pos env (processingState st) (allChunksOf env docs) embs ha]
    refine ⟨rfl, rfl, rfl, ?_, ?_, ?_, ?_⟩
    · simp only [completedState, processingState]
      rw [hch]
      simp [dbChunksOf_length]
    · intro c hcm
      simp only [completedState, processingState] at hcm
      rw [hch] at hcm
      simp only [List.nil_append] at hcm
      exact dbChunksOf_file_id env st.file.id (allChunksOf env docs) c hcm
    · simp only [completedState, processingState]
      rw [hv]
      simp [entriesOf_length env st.file.id st.file.category_id
        (allChunksOf env docs) embs hl]
    · intro v hvm
      simp only [completedState, processingState] at hvm
      rw [hv] at hvm
      simp only [List.nil_append] at hvm
      exact entriesOf_meta_file_id env st.file.id st.file.category_id
        (allChunksOf env docs) embs hl v hvm
  · intro env st h0 s hs hns
    cases hx : env.extract with
    | error e =>
        rw [process_file_task_extract_error env st e hx] at hs
        simp only [List.mem_cons, List.not_mem_nil, or_false] at hs
        rcases hs with rfl | rfl
        · simpa [processingState] using h0
        · simpa [failState, processingState] using h0
    | ok docs =>
        rw [process_file_task_extract_ok env st docs hx] at hs
        unfold runWithDocs at hs
        by_cases hd : docs.isEmpty = true
        · rw [if_pos hd] at hs
          simp only [List.mem_cons, List.not_mem_nil, or_false] at hs
          rcases hs with rfl | rfl
          · simpa [processingState] using h0
          · simpa [failState, processingState] using h0
        · rw [if_neg hd] at hs
          by_cases hc : (allChunksOf env docs).isEmpty = true
          · rw [if_pos hc] at hs
            simp only [List.mem_cons, List.not_mem_nil, or_false] at hs
            rcases hs with rfl | rfl
            · simpa [processingState] using h0
            · simpa [failState, processingState] using h0
          · rw [if_neg hc] at hs
            cases hemb : env.embedBatch ((allChunksOf env docs).map (·.text)) with
            | error e =>
                rw [hemb] at hs
                simp only [List.mem_cons, List.not_mem_nil, or_false] at hs
                rcases hs with rfl | rfl
                · simpa [processingState] using h0
                · simpa [failState, processingState] using h0
            | ok embs =>
                rw [hemb] at hs
                dsimp only at hs
                unfold runPersist at hs
                split at hs
                · simp only [List.mem_cons, List.not_mem_nil, or_false] at hs
                  rcases hs with rfl | rfl | rfl
                  · simpa [processingState] using h0
                  · simpa [committedState, processingState] using h0
                  · exact absurd rfl hns
                · simp only [List.mem_cons, List.not_mem_nil, or_false] at hs
                  rcases hs with rfl | rfl | rfl
                  · simpa [processingState] using h0
                  · simpa [committedState, processingState] using h0
                  · simpa [failedAddState, processingState] using h0

/-- Witness for C3 at the concrete two-fragment environment: success with
N = 2, two Chunk rows, two vector entries, and `total_chunks = 0` in every
non-completed committed state of the run. -/
theorem total_chunks_matches_counts_witness :
    (process_file_task envC1 stFresh).1 = .success stFresh.file.id
      (allChunksOf envC1 [{ text := "alpha" }, { text := "beta" }]).length ∧
    (process_file_task envC1 stFresh).2.1.file.status = .completed ∧
    (process_file_task envC1 stFresh).2.1.file.total_chunks =
      (allChunksOf envC1 [{ text := "alpha" }, { text := "beta" }]).length ∧
    (process_file_task envC1 stFresh).2.1.chunks.length =
      (allChunksOf envC1 [{ text := "alpha" }, { text := "beta" }]).length ∧
    (process_file_task envC1 stFresh).2.1.vector.length =
      (allChunksOf envC1 [{ text := "alpha" }, { text := "beta" }]).length ∧
    (∀ s ∈ (process_file_task envC1 stFresh).2.2,
      s.file.status ≠ Status.completed → s.file.total_chunks = 0) := by
  have h1 := total_chunks_matches_counts.1 envC1 stFresh
    [{ text := "alpha" }, { text := "beta" }] [[(5 : ℚ)], [(4 : ℚ)]]
    rfl rfl rfl rfl rfl rfl (by decide) rfl
  have h2 := total_chunks_matches_counts.2 envC1 stFresh rfl
  exact ⟨h1.1, h1.2.1, h1.2.2.1, h1.2.2.2.1, h1.2.2.2.2.2.1, h2⟩
